import Mathlib

/-
Verification of the observe-path library (src/lib/observer.js, src/lib/link.js,
the Path class).  The JavaScript code is shallowly embedded as executable Lean
functions over an explicit world state: a heap of objects with property
descriptors, the process-wide observer registry, the per-(path, root) chains,
and an event log recording user-callback invocations and original-setter calls.
Closures (user callbacks and the bound Link.change handlers) are
defunctionalised as the Callback type and interpreted by invokeCb.
-/

namespace ObservePath

/-- JavaScript values, as far as the library distinguishes them.  Strict
equality (===) coincides with decidable equality here: objects compare by
identity (their heap id), strings and numbers by value.  Function values are
not modelled: the library only stores them as callbacks, which are
defunctionalised separately. -/
inductive Value where
  | undefined
  | null
  | boolean (b : Bool)
  | num (n : Int)
  | str (s : String)
  | obj (o : Nat)
deriving DecidableEq

/-- JavaScript truthiness of a value (NaN aside, which is not modelled). -/
def truthy : Value → Bool
  | .undefined => false
  | .null => false
  | .boolean b => b
  | .num n => n != 0
  | .str s => s != ""
  | .obj _ => true

/-- Whether typeof yields object or function, i.e. the value can carry own
properties and be instrumented (null is excluded by truthiness wherever the
source combines the two tests). -/
def isObjLike : Value → Bool
  | .obj _ => true
  | _ => false

/-- Errors the embedded code can raise: host TypeErrors and the library's own
thrown Error instances, with their messages. -/
inductive JsError where
  | typeError (msg : String)
  | jsError (msg : String)
deriving DecidableEq

/-- Result of a fallible operation (the analogue of a JS call that may throw). -/
inductive Res (α : Type) where
  | ok (a : α)
  | err (e : JsError)
deriving DecidableEq

/-- A JavaScript property descriptor object, as produced by
Object.getOwnPropertyDescriptor or passed to Object.defineProperty.  A `none`
field means the key is absent (for get and set it also covers an undefined
function value, which the source only ever tests for truthiness).  Getters and
setters are identified by opaque numeric ids. -/
structure JsDescriptor where
  value : Option Value
  writable : Option Bool
  enumerable : Option Bool
  configurable : Option Bool
  get : Option Nat
  set : Option Nat
deriving DecidableEq

/-- The kind of an own property as stored on the heap: a plain data property,
an accessor property (original getter/setter ids), or the accessor pair the
Observer installs (interceptor bound to observer `obs`, original getter kept). -/
inductive PropKind where
  | dataProp (value : Value) (writable : Bool)
  | accessorProp (get : Option Nat) (set : Option Nat)
  | instrumented (obs : Nat) (origGet : Option Nat)
deriving DecidableEq

/-- A complete own-property state on the heap. -/
structure PropState where
  kind : PropKind
  enumerable : Bool
  configurable : Bool
deriving DecidableEq

/-- Convert a heap property to the descriptor object
Object.getOwnPropertyDescriptor would return for it. -/
def toJsDescriptor (ps : PropState) : JsDescriptor :=
  match ps.kind with
  | .dataProp v w =>
      { value := some v, writable := some w, enumerable := some ps.enumerable,
        configurable := some ps.configurable, get := none, set := none }
  | .accessorProp g s =>
      { value := none, writable := none, enumerable := some ps.enumerable,
        configurable := some ps.configurable, get := g, set := s }
  | .instrumented _ og =>
      { value := none, writable := none, enumerable := some ps.enumerable,
        configurable := some ps.configurable, get := some (og.getD 0), set := some 0 }

/-- The default descriptor the Observer constructor synthesises when the
property does not yet exist: enumerable true, writable true, value undefined,
and no configurable key. -/
def defaultDescr : JsDescriptor :=
  { value := some .undefined, writable := some true, enumerable := some true,
    configurable := none, get := none, set := none }

/-- A defunctionalised JS callback: either an external user callback (logged
when invoked) or the bound Link.change handler of link number idx of the chain
for path pid rooted at object ro. -/
inductive Callback where
  | user (id : Nat)
  | linkChange (pid : Nat) (idx : Nat) (ro : Nat)
deriving DecidableEq

/-- An entry of the event log: a user callback invoked with two arguments, or
an original setter (identified by id) invoked with a value.  External setter
side effects are not modelled beyond this record. -/
inductive Event where
  | userCb (id : Nat) (a : Value) (b : Value)
  | origSetter (id : Nat) (v : Value)
deriving DecidableEq

/-- The instrumentation fields an Observer sets only when it actually swaps the
descriptor: this.target, this.property and this.definition. -/
structure Instr where
  target : Nat
  property : String
  definition : JsDescriptor
deriving DecidableEq

/-- The mutable state of one Observer instance. -/
structure ObsState where
  callbacks : List Callback
  value : Value
  instr : Option Instr
deriving DecidableEq

/-- The per-(path, root) chain state: this.observer of each Link by index
(none while unattached; detach does not clear it, mirroring the source), the
registered path callbacks (user ids, stored on the first link in the source),
and the cached resolved value. -/
structure Chain where
  links : List (Option Nat)
  callbacks : List Nat
  value : Value
deriving DecidableEq

/-- Association-list lookup (first match). -/
def alookup {κ α : Type} [DecidableEq κ] : List (κ × α) → κ → Option α
  | [], _ => none
  | (k, a) :: t, q => if k = q then some a else alookup t q

/-- Association-list update (replace the existing binding, or append). -/
def aset {κ α : Type} [DecidableEq κ] : List (κ × α) → κ → α → List (κ × α)
  | [], q, b => [(q, b)]
  | (k, a) :: t, q, b => if k = q then (k, b) :: t else (k, a) :: aset t q b

/-- Association-list deletion of the (unique) binding for a key. -/
def adel {κ α : Type} [DecidableEq κ] : List (κ × α) → κ → List (κ × α)
  | [], _ => []
  | (k, a) :: t, q => if k = q then t else (k, a) :: adel t q

/-- The heap: own properties of objects, keyed by (object id, property name).
The prototype chain is not modelled; every scenario uses own properties. -/
def Heap : Type := List ((Nat × String) × PropState)

instance : DecidableEq Heap := by
  unfold Heap
  infer_instance

/-- The whole world: heap, the process-wide observer registry (property name
and object id to observer id, flattening the per-property WeakMaps), the table
of Observer instances, the declared paths, the active chains keyed by
(path id, root object id), and the event log. -/
structure World where
  heap : Heap
  registry : List ((String × Nat) × Nat)
  obsTable : List (Nat × ObsState)
  nextObs : Nat
  pathSegs : List (Nat × List String)
  chains : List ((Nat × Nat) × Chain)
  log : List Event
deriving DecidableEq

/-- Look up an own property on the heap. -/
def hget (h : Heap) (o : Nat) (p : String) : Option PropState :=
  alookup h (o, p)

/-- Append an event to the log. -/
def pushLog (w : World) (e : Event) : World :=
  { w with log := w.log ++ [e] }

/-- Update an observer's state in place. -/
def updObs (w : World) (oid : Nat) (f : ObsState → ObsState) : World :=
  match alookup w.obsTable oid with
  | some o => { w with obsTable := aset w.obsTable oid (f o) }
  | none => w

/-- The segment list of a declared path. -/
def segsOf (w : World) (pid : Nat) : List String :=
  (alookup w.pathSegs pid).getD []

/-- The observer currently recorded for link number idx of the chain for
(pid, ro). -/
def linkObs (w : World) (pid ro idx : Nat) : Option Nat :=
  match alookup w.chains (pid, ro) with
  | some ch => ch.links.getD idx none
  | none => none

/-- Record this.observer for link number idx of the chain for (pid, ro). -/
def setLinkObs (w : World) (pid ro idx oid : Nat) : World :=
  match alookup w.chains (pid, ro) with
  | some ch => { w with chains := aset w.chains (pid, ro) { ch with links := ch.links.set idx (some oid) } }
  | none => w

/-- Set the cached resolved value of the chain for (pid, ro). -/
def setChainValue (w : World) (pid ro : Nat) (v : Value) : World :=
  match alookup w.chains (pid, ro) with
  | some ch => { w with chains := aset w.chains (pid, ro) { ch with value := v } }
  | none => w

/-- Object.getOwnPropertyDescriptor(target, property): none for primitives
(their boxed wrappers carry no relevant own properties) and for absent
properties. -/
def getOwnPropDescr (h : Heap) (target : Value) (property : String) : Option JsDescriptor :=
  match target with
  | .obj o => (hget h o property).map toJsDescriptor
  | _ => none

/-- The defineProperty call the Observer constructor performs: install the
interceptor accessor pair with configurable true and the requested
enumerability.  Throws a TypeError on a non-object target or when the existing
property is non-configurable (the new descriptor always differs from a
non-configurable one), exactly the two ways the host rejects this call.
Returns the target object id together with the new heap. -/
def defineInstrumented (h : Heap) (target : Value) (property : String)
    (oid : Nat) (origGet : Option Nat) (enum : Bool) : Res (Nat × Heap) :=
  match target with
  | .obj o =>
      match hget h o property with
      | some ps =>
          if ps.configurable then
            .ok (o, aset h (o, property) ⟨.instrumented oid origGet, enum, true⟩)
          else .err (.typeError "Cannot redefine property")
      | none => .ok (o, aset h (o, property) ⟨.instrumented oid origGet, enum, true⟩)
  | _ => .err (.typeError "Object.defineProperty called on non-object")

/-- The defineProperty call Observer.dispose performs: redefine the property
from the saved descriptor.  The library only ever restores a data descriptor
over its own configurable instrumented slot, so this cannot throw; attributes
missing from the descriptor keep their current values, as the host specifies
for redefinition of an existing property. -/
def defineRestore (h : Heap) (o : Nat) (property : String) (d : JsDescriptor) : Heap :=
  match hget h o property with
  | some cur =>
      if cur.configurable then
        aset h (o, property)
          ⟨.dataProp (d.value.getD .undefined) (d.writable.getD false),
            d.enumerable.getD cur.enumerable, d.configurable.getD cur.configurable⟩
      else h
  | none =>
      aset h (o, property)
        ⟨.dataProp (d.value.getD .undefined) (d.writable.getD false),
          d.enumerable.getD false, d.configurable.getD false⟩

/-- The Observer constructor.  Reads the current descriptor (or synthesises the
default), caches the value, and short-circuits with no instrumentation when the
destructured writable is not true (read-only data properties, and every
accessor descriptor, whose writable key is absent) or when a getter exists
without a setter.  Otherwise installs the interceptor descriptor, which throws
for non-object targets and non-configurable properties.  oid is the id the new
observer will receive. -/
def Observer.construct (w : World) (target : Value) (property : String) (oid : Nat) :
    World × Res ObsState :=
  let definition := (getOwnPropDescr w.heap target property).getD defaultDescr
  let value := definition.value.getD .undefined
  let obs0 : ObsState := { callbacks := [], value := value, instr := none }
  if definition.writable ≠ some true ∨ (definition.get.isSome ∧ definition.set.isNone) then
    (w, .ok obs0)
  else
    match defineInstrumented w.heap target property oid definition.get
        (definition.enumerable.getD false) with
    | .ok (o, h2) =>
        ({ w with heap := h2 },
          .ok { obs0 with instr := some ⟨o, property, definition⟩ })
    | .err e => (w, .err e)

/-- Observer.add: register a callback with an observer (push, so invocation
order is registration order). -/
def Observer.add (w : World) (oid : Nat) (cb : Callback) : World :=
  updObs w oid (fun o => { o with callbacks := o.callbacks ++ [cb] })

/-- Observer.observe: reuse the registry entry for (property, object) when one
exists, otherwise construct a new Observer (which may throw) and register it;
then add the callback.  On a constructor throw nothing has been registered.
Returns the observer id. -/
def Observer.observe (w : World) (target : Value) (property : String) (cb : Callback) :
    World × Res Nat :=
  let existing := match target with
    | .obj o => alookup w.registry (property, o)
    | _ => none
  match existing with
  | some oid => (Observer.add w oid cb, .ok oid)
  | none =>
      let oid := w.nextObs
      match Observer.construct w target property oid with
      | (w1, .ok obs) =>
          let w2 := { w1 with obsTable := aset w1.obsTable oid obs, nextObs := oid + 1 }
          let w3 := match target with
            | .obj o => { w2 with registry := aset w2.registry (property, o) oid }
            | _ => w2
          (Observer.add w3 oid cb, .ok oid)
      | (w1, .err e) => (w1, .err e)

/-- Observer.get: return the cached value. -/
def Observer.get (w : World) (oid : Nat) : Value :=
  match alookup w.obsTable oid with
  | some obs => obs.value
  | none => .undefined

/-- Observer.remove: drop the first occurrence of the callback; when the list
drains, dispose (write the cached value into a saved data descriptor and
restore it) and delete the registry entry — but only when instrumentation was
installed, so short-circuited observers stay registered, as in the source. -/
def Observer.remove (w : World) (oid : Nat) (cb : Callback) : World × Bool :=
  match alookup w.obsTable oid with
  | none => (w, false)
  | some obs =>
      if obs.callbacks.contains cb then
        let cbs := obs.callbacks.erase cb
        let w1 := { w with obsTable := aset w.obsTable oid { obs with callbacks := cbs } }
        if cbs.isEmpty then
          match obs.instr with
          | some inst =>
              let d := inst.definition
              let d2 := if d.value.isSome then { d with value := some obs.value } else d
              ({ w1 with
                  heap := defineRestore w1.heap inst.target inst.property d2,
                  registry := adel w1.registry (inst.property, inst.target) }, true)
          | none => (w1, true)
        else (w1, true)
      else (w, false)

/-- Observer.unobserve: look the observer up in the registry and remove the
callback; silently a no-op when no observer is registered. -/
def Observer.unobserve (w : World) (target : Value) (property : String) (cb : Callback) : World :=
  let existing := match target with
    | .obj o => alookup w.registry (property, o)
    | _ => none
  match existing with
  | some oid => (Observer.remove w oid cb).1
  | none => w

/-- Link.detach for the link at index idx whose remaining segments (its own
part first) are the given list: remove the bound change handler from the
recorded observer (a no-op when none was ever recorded) and recurse into the
next link when one exists.  The observer reference itself is not cleared,
mirroring the source. -/
def Link.detach : World → Nat → Nat → Nat → List String → World
  | w, _, _, _, [] => w
  | w, pid, ro, idx, _part :: rest =>
      match linkObs w pid ro idx with
      | none => w
      | some oid =>
          let w1 := (Observer.remove w oid (.linkChange pid idx ro)).1
          if rest.isEmpty then w1 else Link.detach w1 pid ro (idx + 1) rest

/-- Link.attach for the link at index idx whose remaining segments (its own
part first) are the given list: detach first when an observer is already
recorded, observe the target's part with the bound change handler (which may
throw), record the observer, and either return the value (terminal link),
recurse into the next link when the value is truthy, or stop with undefined.
The empty segment list is unreachable: every link carries a part. -/
def Link.attach : World → Nat → Nat → Nat → List String → Value → World × Res Value
  | w, _, _, _, [], _ => (w, .ok .undefined)
  | w, pid, ro, idx, part :: rest, target =>
      let w0 := if (linkObs w pid ro idx).isSome then Link.detach w pid ro idx (part :: rest) else w
      match Observer.observe w0 target part (.linkChange pid idx ro) with
      | (w1, .err e) => (w1, .err e)
      | (w1, .ok oid) =>
          let value := Observer.get w1 oid
          let w2 := setLinkObs w1 pid ro idx oid
          if rest.isEmpty then (w2, .ok value)
          else if truthy value then Link.attach w2 pid ro (idx + 1) rest value
          else (w2, .ok .undefined)

/-- Path.change: the deduplication point.  Looks up the chain for (pid, ro)
(reading link.value before the null check, so a missing chain is a host
TypeError and the custom unbound-path throw in the source is unreachable), and
when the reported value differs from the cached one invokes every registered
path callback with (value, old) — the new value first, as the source does —
then caches the new value. -/
def Path.change (w : World) (pid ro : Nat) (value : Value) : World × Res Unit :=
  match alookup w.chains (pid, ro) with
  | none => (w, .err (.typeError "Cannot read properties of undefined"))
  | some link =>
      let old := link.value
      if old ≠ value then
        let w1 := link.callbacks.foldl (fun acc cb => pushLog acc (.userCb cb value old)) w
        (setChainValue w1 pid ro value, .ok ())
      else (w, .ok ())

/-- The body of the bound Link.change handler for link idx of (pid, ro),
invoked by Observer.set with the new raw value before the cached value is
updated.  Ignores the event when the raw value is unchanged; otherwise, when a
next link exists and the value is truthy, reattaches the tail for object-like
values (undefined for truthy primitives); in every other case — including a
falsy value with a next link — the raw value itself is reported to
Path.change, exactly as in the source. -/
def Link.changeRun (w : World) (pid idx ro : Nat) (value : Value) : World × Res Unit :=
  let rest := (segsOf w pid).drop (idx + 1)
  match linkObs w pid ro idx with
  | none => (w, .err (.typeError "Cannot read properties of undefined"))
  | some oid =>
      let existing := Observer.get w oid
      if existing = value then (w, .ok ())
      else
        if !rest.isEmpty && truthy value then
          if isObjLike value then
            match Link.attach w pid ro (idx + 1) rest value with
            | (w1, .ok v) => Path.change w1 pid ro v
            | (w1, .err e) => (w1, .err e)
          else Path.change w pid ro .undefined
        else Path.change w pid ro value

/-- Interpret one registered callback: external user callbacks are logged with
their two arguments (the target object and the new value, as Observer.set
passes them); a bound Link.change handler runs its body. -/
def invokeCb (w : World) (cb : Callback) (target : Nat) (value : Value) : World × Res Unit :=
  match cb with
  | .user id => (pushLog w (.userCb id (.obj target) value), .ok ())
  | .linkChange pid idx ro => Link.changeRun w pid idx ro value

/-- Invoke a snapshot of a callback list in order, stopping at the first
exception, which propagates. -/
def invokeList : World → List Callback → Nat → Value → World × Res Unit
  | w, [], _, _ => (w, .ok ())
  | w, cb :: rest, t, v =>
      match invokeCb w cb t v with
      | (w1, .ok _) => invokeList w1 rest t v
      | (w1, .err e) => (w1, .err e)

/-- Observer.set, the installed interceptor (also called directly by
Link.set).  Reads this.definition.set first — a TypeError on a short-circuited
observer, whose definition was never stored — then ignores writes of the
strictly-equal value; otherwise invokes every callback with (target, value)
unless silent, updates the cached value, and finally forwards to the original
setter when one was saved (dead in practice: instrumentation implies a data
descriptor). -/
def Observer.set (w : World) (oid : Nat) (value : Value) (silent : Bool) : World × Res Unit :=
  match alookup w.obsTable oid with
  | none => (w, .err (.typeError "Cannot read properties of undefined"))
  | some obs =>
      match obs.instr with
      | none => (w, .err (.typeError "Cannot read properties of undefined"))
      | some inst =>
          if obs.value = value then (w, .ok ())
          else
            match (if silent then (w, .ok ()) else invokeList w obs.callbacks inst.target value) with
            | (w1, .ok _) =>
                let w2 := updObs w1 oid (fun o => { o with value := value })
                match inst.definition.set with
                | some sid => (pushLog w2 (.origSetter sid value), .ok ())
                | none => (w2, .ok ())
            | (w1, .err e) => (w1, .err e)

/-- A JavaScript assignment target.prop = value in strict mode: dispatch on
the own property — through the interceptor when instrumented, a plain write
for writable data properties, the original setter (recorded in the log, its
other effects being external) for accessors — throwing for read-only data
properties, getter-only accessors and absent-setter cases; an absent property
is created as a plain enumerable writable data property. -/
def assign (w : World) (o : Nat) (property : String) (value : Value) : World × Res Unit :=
  match hget w.heap o property with
  | some ps =>
      match ps.kind with
      | .instrumented oid _ => Observer.set w oid value false
      | .dataProp _ wr =>
          if wr then
            ({ w with heap := aset w.heap (o, property) ⟨.dataProp value wr, ps.enumerable, ps.configurable⟩ }, .ok ())
          else (w, .err (.typeError "Cannot assign to read only property"))
      | .accessorProp _ s =>
          match s with
          | some sid => (pushLog w (.origSetter sid value), .ok ())
          | none => (w, .err (.typeError "Cannot set property which has only a getter"))
  | none =>
      ({ w with heap := aset w.heap (o, property) ⟨.dataProp value true, true, true⟩ }, .ok ())

/-- Path.observe: throws on a falsy root; reuses the existing chain for the
root by appending the callback; otherwise registers a fresh chain (all links
unattached) before attaching — so a throw during attach leaves the partially
attached chain registered, as in the source — and seeds the cached value with
the attach result.  A truthy primitive root throws at the WeakMap store. -/
def Path.observe (w : World) (pid : Nat) (root : Value) (cbId : Nat) : World × Res Unit :=
  if truthy root = false then (w, .err (.jsError "Cannot bind to undefined value"))
  else
    match root with
    | .obj ro =>
        match alookup w.chains (pid, ro) with
        | some link =>
            ({ w with chains := aset w.chains (pid, ro) { link with callbacks := link.callbacks ++ [cbId] } }, .ok ())
        | none =>
            let segs := segsOf w pid
            let link0 : Chain := { links := List.replicate segs.length none, callbacks := [cbId], value := .undefined }
            let w1 := { w with chains := aset w.chains (pid, ro) link0 }
            match Link.attach w1 pid ro 0 segs root with
            | (w2, .ok v) => (setChainValue w2 pid ro v, .ok ())
            | (w2, .err e) => (w2, .err e)
    | _ => (w, .err (.typeError "Invalid value used as weak map key"))

/-- Path.unobserve: returns false — without throwing — on a falsy root, an
unknown root or an unregistered callback; otherwise removes the callback and,
when the list drains, detaches the whole chain and forgets it. -/
def Path.unobserve (w : World) (pid : Nat) (root : Value) (cbId : Nat) : World × Bool :=
  if truthy root = false then (w, false)
  else
    match root with
    | .obj ro =>
        match alookup w.chains (pid, ro) with
        | none => (w, false)
        | some link =>
            if link.callbacks.contains cbId then
              let cbs := link.callbacks.erase cbId
              let w1 := { w with chains := aset w.chains (pid, ro) { link with callbacks := cbs } }
              if cbs.isEmpty then
                let w2 := Link.detach w1 pid ro 0 (segsOf w pid)
                ({ w2 with chains := adel w2.chains (pid, ro) }, true)
              else (w1, true)
            else (w, false)
    | _ => (w, false)

/-- Read target.part as a plain JavaScript property access: a TypeError on
null or undefined, the undefined value for other primitives (their boxed
wrappers carry none of the properties used here), and the heap property for
objects — data value, cached observer value through an installed interceptor
(the original-getter case is unreachable: instrumentation is only installed
over data descriptors), undefined through a getterless accessor; external
getter results are not modelled. -/
def readProp (w : World) (v : Value) (part : String) : Res Value :=
  match v with
  | .undefined => .err (.typeError "Cannot read properties of undefined")
  | .null => .err (.typeError "Cannot read properties of null")
  | .obj o =>
      match hget w.heap o part with
      | some ps =>
          match ps.kind with
          | .dataProp dv _ => .ok dv
          | .instrumented oid og => .ok (if og.isSome then .undefined else Observer.get w oid)
          | .accessorProp _ _ => .ok .undefined
      | none => .ok .undefined
  | _ => .ok .undefined

/-- The cold walk of Path.get: root = root[part] for each segment, returning
the current value — the falsy value itself, not undefined — as soon as it is
falsy, exactly as the source's early return does. -/
def Path.getLoop (w : World) : Value → List String → Res Value
  | r, [] => .ok r
  | r, part :: rest =>
      match readProp w r part with
      | .err e => .err e
      | .ok r2 => if truthy r2 then Path.getLoop w r2 rest else .ok r2

/-- Path.get: the cached resolved value when an active chain exists for the
root, otherwise the cold uninstrumented walk (the function is pure in the
world, so the cold path cannot mutate a descriptor). -/
def Path.get (w : World) (pid : Nat) (root : Value) : Res Value :=
  let link := match root with
    | .obj ro => alookup w.chains (pid, ro)
    | _ => none
  match link with
  | some l => .ok l.value
  | none => Path.getLoop w root (segsOf w pid)

/-- Path.set: false when no chain exists for the root or the terminal link
never recorded an observer; otherwise forwards to the terminal observer's set
(which may throw) and caches the new resolved value, returning true. -/
def Path.set (w : World) (pid : Nat) (root : Value) (value : Value) (silent : Bool) :
    World × Res Bool :=
  let link := match root with
    | .obj ro => alookup w.chains (pid, ro)
    | _ => none
  match root, link with
  | .obj ro, some l =>
      match l.links.getLastD none with
      | none => (w, .ok false)
      | some oid =>
          match Observer.set w oid value silent with
          | (w1, .ok _) => (setChainValue w1 pid ro value, .ok true)
          | (w1, .err e) => (w1, .err e)
  | _, _ => (w, .ok false)

/-- Modelled from the spec glossary: read one own property for the
specification-side resolved-value walk (data value, cached interceptor value,
undefined otherwise). -/
def readPropTotal (w : World) (o : Nat) (part : String) : Value :=
  match hget w.heap o part with
  | some ps =>
      match ps.kind with
      | .dataProp dv _ => dv
      | .instrumented oid og => if og.isSome then .undefined else Observer.get w oid
      | .accessorProp _ _ => .undefined
  | none => .undefined

/-- Modelled from the spec glossary: the resolved value of a path from a root
is the value obtained by following every segment to the end, or undefined as
soon as a segment is missing or its value is not an object. -/
def specResolvedValue (w : World) : Value → List String → Value
  | v, [] => v
  | v, part :: rest =>
      match v with
      | .obj o => specResolvedValue w (readPropTotal w o part) rest
      | _ => .undefined

/-- Count the invocations of user callback id in the log. -/
def countCb : List Event → Nat → Nat
  | [], _ => 0
  | .userCb id _ _ :: t, q => (if id = q then 1 else 0) + countCb t q
  | .origSetter _ _ :: t, q => countCb t q

/-- The last element of a list, with a default: the value an initially-cached
c becomes after a sequence of interceptor writes. -/
def lastD : List Value → Value → Value
  | [], d => d
  | v :: t, _ => lastD t v

/-- A fresh world over a given heap and path table. -/
def mkWorld (h : Heap) (ps : List (Nat × List String)) : World :=
  { heap := h, registry := [], obsTable := [], nextObs := 0, pathSegs := ps,
    chains := [], log := [] }

/-- A plain enumerable configurable writable data property. -/
def dataPS (v : Value) : PropState := ⟨.dataProp v true, true, true⟩

/-- The heap of the concrete spec scenario: object 0 is the root with a = the
object 1, whose b is the object 2, whose c is 7; objects 3, 4 and 5 are the
literals later assigned ({c: x} twice and {b: object 5}). -/
def heapC1 : Heap :=
  [ ((0, "a"), dataPS (.obj 1)),
    ((1, "b"), dataPS (.obj 2)),
    ((2, "c"), dataPS (.num 7)),
    ((3, "c"), dataPS (.str "x")),
    ((4, "b"), dataPS (.obj 5)),
    ((5, "c"), dataPS (.str "x")) ]

/-- The scenario world before observation: path 0 is (a, b, c). -/
def wABC : World := mkWorld heapC1 [(0, ["a", "b", "c"])]

/-- After path.observe(root, C) with user callback 0. -/
def wObs : World := (Path.observe wABC 0 (.obj 0) 0).1

/-- After root.a.b = undefined. -/
def wStepA : World := (assign wObs 1 "b" .undefined).1

/-- After the further root.a.b = {c: x} (object 3). -/
def wStepB : World := (assign wStepA 1 "b" (.obj 3)).1

/-- After the further root.a = {b: {c: x}} (object 4 holding object 5). -/
def wStepC : World := (assign wStepB 0 "a" (.obj 4)).1

/-- Branching from wStepA instead: mutate c on the old, now unreachable object
2 ({c: 7}). -/
def wStale : World := (assign wStepA 2 "c" (.num 9)).1

/-- A world whose root (object 6) has a = undefined, so the path (a, b, c) is
broken from the start. -/
def wB0 : World := mkWorld [((6, "a"), dataPS .undefined)] [(0, ["a", "b", "c"])]

/-- The broken-root world after path.observe with user callback 1. -/
def wB1 : World := (Path.observe wB0 0 (.obj 6) 1).1

/-- A world whose object 7 has a configurable accessor property v with both a
getter (id 1) and a setter (id 2). -/
def wAcc : World := mkWorld [((7, "v"), ⟨.accessorProp (some 1) (some 2), true, true⟩)] []

/-- The accessor world after Observer.observe with user callback 3. -/
def wAccObs : World := (Observer.observe wAcc (.obj 7) "v" (.user 3)).1

/-- A world whose object 8 has a non-configurable, non-writable data property
k with value 1. -/
def wC6 : World := mkWorld [((8, "k"), ⟨.dataProp (.num 1) false, true, false⟩)] []

/-- A world whose object 8 carries property k in an arbitrary non-configurable
state. -/
def mkW6 (k : PropKind) (en : Bool) : World := mkWorld [((8, "k"), ⟨k, en, false⟩)] []

/-- Whether a property kind is a writable data property — the only shape whose
observation reaches the descriptor swap. -/
def isWritableData : PropKind → Bool
  | .dataProp _ wr => wr
  | _ => false

/-- A world whose root (object 9) has a = 5, a truthy primitive, under path
(a, b). -/
def wPrim : World := mkWorld [((9, "a"), dataPS (.num 5))] [(0, ["a", "b"])]

/-- A world whose root (object 9) has a = 0, a falsy primitive, under path
(a, b). -/
def wZero : World := mkWorld [((9, "a"), dataPS (.num 0))] [(0, ["a", "b"])]

/-- A world whose root (object 10) has a = 0 and no active chain, under path
(a, b). -/
def wC9 : World := mkWorld [((10, "a"), dataPS (.num 0))] [(0, ["a", "b"])]

/-- The descriptor the Observer constructor reads for a pre-existing
enumerable-as-given, configurable, writable data property with value v0. -/
def origDefn (v0 : Value) (en : Bool) : JsDescriptor :=
  { value := some v0, writable := some true, enumerable := some en,
    configurable := some true, get := none, set := none }

/-- A world whose object 0 has a writable configurable data property p with
value v0 and enumerability en. -/
def w8 (v0 : Value) (en : Bool) : World :=
  mkWorld [((0, "p"), ⟨.dataProp v0 true, en, true⟩)] []

/-- The w8 world after Observer.observe with user callback 9, with cached
value c and log lg: property p instrumented, observer 0 registered. -/
def w8mid (v0 : Value) (en : Bool) (c : Value) (lg : List Event) : World :=
  { heap := [((0, "p"), ⟨.instrumented 0 none, en, true⟩)],
    registry := [(("p", 0), 0)],
    obsTable := [(0, ⟨[.user 9], c, some ⟨0, "p", origDefn v0 en⟩⟩)],
    nextObs := 1, pathSegs := [], chains := [], log := lg }

/-- Apply a sequence of assignments to property p of object 0. -/
def writeSeq (w : World) (vs : List Value) : World :=
  vs.foldl (fun acc v => (assign acc 0 "p" v).1) w

/-- A world whose object 0 has an accessor property p with arbitrary getter
and setter ids and flags. -/
def wAcc8 (g s : Option Nat) (en cf : Bool) : World :=
  mkWorld [((0, "p"), ⟨.accessorProp g s, en, cf⟩)] []

/-- A world whose object 0 has a read-only data property p with arbitrary
value and flags. -/
def wRO8 (v : Value) (en cf : Bool) : World :=
  mkWorld [((0, "p"), ⟨.dataProp v false, en, cf⟩)] []

/-- Observing a writable configurable data property instruments it and yields
exactly the w8mid state with the original value cached. -/
theorem w8_observe (v0 : Value) (en : Bool) :
    Observer.observe (w8 v0 en) (.obj 0) "p" (.user 9) = (w8mid v0 en v0 [], .ok 0) := rfl

/-- One assignment through the interceptor: a strictly-equal value is a no-op,
otherwise the callback fires, the cache updates, and nothing else changes. -/
theorem w8_step (v0 : Value) (en : Bool) (c : Value) (lg : List Event) (v : Value) :
    assign (w8mid v0 en c lg) 0 "p" v
      = (w8mid v0 en v (if c = v then lg else lg ++ [.userCb 9 (.obj 0) v]), .ok ()) := by
  by_cases h : c = v
  · subst h
    simp [assign, Observer.set, invokeList, invokeCb, pushLog, updObs, hget, alookup, aset,
      w8mid, origDefn]
  · simp [assign, Observer.set, invokeList, invokeCb, pushLog, updObs, hget, alookup, aset,
      w8mid, origDefn, h]

/-- Any sequence of interceptor writes leaves the w8mid state with the last
written value cached (and some log). -/
theorem w8_writes (vs : List Value) :
    ∀ (v0 : Value) (en : Bool) (c : Value) (lg : List Event),
    ∃ lg2, writeSeq (w8mid v0 en c lg) vs = w8mid v0 en (lastD vs c) lg2 := by
  induction vs with
  | nil => exact fun _ en c lg => ⟨lg, rfl⟩
  | cons v t ih =>
      intro v0 en c lg
      have hs : writeSeq (w8mid v0 en c lg) (v :: t)
          = writeSeq (assign (w8mid v0 en c lg) 0 "p" v).1 t := rfl
      rw [hs, w8_step]
      exact ih v0 en v _

/-- Removing the last callback from the instrumented w8mid state restores the
original data descriptor with the cached value written into it. -/
theorem w8_restore (v0 : Value) (en : Bool) (c : Value) (lg : List Event) :
    hget (Observer.unobserve (w8mid v0 en c lg) (.obj 0) "p" (.user 9)).heap 0 "p"
      = some ⟨.dataProp c true, en, true⟩ := rfl

/-- C1: on root {a: {b: {c: 7}}} with path (a, b, c) and one callback,
root.a.b = undefined fires once, root.a.b = {c: x} fires once, and
root.a = {b: {c: x}} (same terminal value via a new intermediate object) fires
zero times — but the general clause fails: the links beyond a segment that
became undefined stay subscribed to the old objects, and mutating c on the
detached old {c: 7} object fires the callback again although the path's
resolved final value is still undefined. -/
theorem c1_notification_counts_and_stale_firing :
    (Path.observe wABC 0 (.obj 0) 0).2 = .ok () ∧
    countCb wObs.log 0 = 0 ∧
    (assign wObs 1 "b" .undefined).2 = .ok () ∧ countCb wStepA.log 0 = 1 ∧
    (assign wStepA 1 "b" (.obj 3)).2 = .ok () ∧ countCb wStepB.log 0 = 2 ∧
    (assign wStepB 0 "a" (.obj 4)).2 = .ok () ∧ countCb wStepC.log 0 = 2 ∧
    specResolvedValue wStepA (.obj 0) ["a", "b", "c"] = .undefined ∧
    (assign wStepA 2 "c" (.num 9)).2 = .ok () ∧
    countCb wStale.log 0 = 2 ∧
    specResolvedValue wStale (.obj 0) ["a", "b", "c"] = .undefined :=
  ⟨rfl, rfl, rfl, rfl, rfl, rfl, rfl, rfl, rfl, rfl, rfl, rfl⟩

/-- C2: path.set does return false with no write when the root has no
ChainState or the chain was never attached past a broken segment; but once the
chain was fully attached and the path later breaks (root.a.b = undefined), set
returns true and writes through the stale terminal observer into the old,
unreachable {c: 7} object, while the actually resolved value stays
undefined — refuting the only-when-intact clause. -/
theorem c2_set_succeeds_on_broken_path :
    Path.set wABC 0 (.obj 0) (.num 5) false = (wABC, .ok false) ∧
    (Path.observe wB0 0 (.obj 6) 1).2 = .ok () ∧
    Path.set wB1 0 (.obj 6) (.num 5) false = (wB1, .ok false) ∧
    specResolvedValue wStepA (.obj 0) ["a", "b", "c"] = .undefined ∧
    (Path.set wStepA 0 (.obj 0) (.num 5) false).2 = .ok true ∧
    readPropTotal (Path.set wStepA 0 (.obj 0) (.num 5) false).1 2 "c" = .num 5 ∧
    specResolvedValue (Path.set wStepA 0 (.obj 0) (.num 5) false).1 (.obj 0) ["a", "b", "c"]
      = .undefined :=
  ⟨rfl, rfl, rfl, rfl, rfl, rfl, rfl⟩

/-- C3: after root.a.b = undefined the link beyond the broken segment is not
torn down: the old {c: 7} object keeps its instrumented descriptor, its
observer still holds the bound Link.change callback, the registry entry
survives, and a later mutation of c on that unreachable object fires the
path callback. -/
theorem c3_downstream_links_not_detached :
    hget wStepA.heap 2 "c" = some ⟨.instrumented 2 none, true, true⟩ ∧
    (alookup wStepA.obsTable 2).map (fun o => o.callbacks) = some [.linkChange 0 2 0] ∧
    alookup wStepA.registry ("c", 2) = some 2 ∧
    specResolvedValue wStepA (.obj 0) ["a", "b", "c"] = .undefined ∧
    (assign wStepA 2 "c" (.num 8)).2 = .ok () ∧
    countCb (assign wStepA 2 "c" (.num 8)).1.log 0 = 2 :=
  ⟨rfl, rfl, rfl, rfl, rfl, rfl⟩

/-- C4: on a terminal change 7 to 5 the path callback is invoked with the new
value 5 as its first argument and the old value 7 as its second — the opposite
of the claimed (oldValue, newValue) order. -/
theorem c4_callback_receives_new_value_first :
    (assign wObs 2 "c" (.num 5)).2 = .ok () ∧
    (assign wObs 2 "c" (.num 5)).1.log = [.userCb 0 (.num 5) (.num 7)] :=
  ⟨rfl, rfl⟩

/-- C5: observing a configurable property that has both a getter and a setter
installs no instrumentation at all — the destructured writable of an accessor
descriptor is undefined, so the read-only short circuit fires — leaving the
descriptor untouched and this.definition unset; a subsequent assignment runs
only the original setter and invokes no registered callback. -/
theorem c5_getter_setter_property_not_instrumented :
    (Observer.observe wAcc (.obj 7) "v" (.user 3)).2 = .ok 0 ∧
    hget wAccObs.heap 7 "v" = some ⟨.accessorProp (some 1) (some 2), true, true⟩ ∧
    (alookup wAccObs.obsTable 0).map (fun o => o.instr) = some none ∧
    (assign wAccObs 7 "v" (.num 5)).1.log = [.origSetter 2 (.num 5)] ∧
    countCb (assign wAccObs 7 "v" (.num 5)).1.log 3 = 0 :=
  ⟨rfl, rfl, rfl, rfl, rfl⟩

/-- C6 counterexample: observing a non-configurable but non-writable data
property raises no error at all — the read-only short circuit returns before
the descriptor swap — refuting the claim that every configurable-false
property makes observe throw. -/
theorem c6_counterexample_nonconfigurable_readonly_no_throw :
    hget wC6.heap 8 "k" = some ⟨.dataProp (.num 1) false, true, false⟩ ∧
    (Observer.observe wC6 (.obj 8) "k" (.user 4)).2 = .ok 0 ∧
    hget (Observer.observe wC6 (.obj 8) "k" (.user 4)).1.heap 8 "k"
      = some ⟨.dataProp (.num 1) false, true, false⟩ :=
  ⟨rfl, rfl, rfl⟩

/-- C6 amended: observing a non-configurable property raises synchronously
exactly when the property is a writable data property (the descriptor swap is
rejected, leaving the world untouched); every other non-configurable shape is
accepted silently with no instrumentation, and in all cases the property's
descriptor is untouched. -/
theorem c6_amended_nonconfigurable_throws_iff_writable_data (k : PropKind) (en : Bool) :
    (isWritableData k = true →
      Observer.observe (mkW6 k en) (.obj 8) "k" (.user 4)
        = (mkW6 k en, .err (.typeError "Cannot redefine property"))) ∧
    (isWritableData k = false →
      (Observer.observe (mkW6 k en) (.obj 8) "k" (.user 4)).2 = .ok 0 ∧
      hget (Observer.observe (mkW6 k en) (.obj 8) "k" (.user 4)).1.heap 8 "k"
        = some ⟨k, en, false⟩ ∧
      (alookup (Observer.observe (mkW6 k en) (.obj 8) "k" (.user 4)).1.obsTable 0).map
          (fun o => o.instr) = some none) := by
  cases k with
  | dataProp v wr =>
      cases wr with
      | false => exact ⟨fun h => by simp [isWritableData] at h, fun _ => ⟨rfl, rfl, rfl⟩⟩
      | true => exact ⟨fun _ => rfl, fun h => by simp [isWritableData] at h⟩
  | accessorProp g s => exact ⟨fun h => by simp [isWritableData] at h, fun _ => ⟨rfl, rfl, rfl⟩⟩
  | instrumented oid og => exact ⟨fun h => by simp [isWritableData] at h, fun _ => ⟨rfl, rfl, rfl⟩⟩

/-- C6 amended claim instantiated: a writable non-configurable data property
does make observe throw with the world untouched. -/
theorem c6_amended_witness :
    isWritableData (.dataProp (.num 1) true) = true ∧
    Observer.observe (mkW6 (.dataProp (.num 1) true) true) (.obj 8) "k" (.user 4)
      = (mkW6 (.dataProp (.num 1) true) true, .err (.typeError "Cannot redefine property")) :=
  ⟨rfl, (c6_amended_nonconfigurable_throws_iff_writable_data (.dataProp (.num 1) true) true).1 rfl⟩

/-- C7: attaching a chain over a truthy primitive intermediate (root.a = 5
under path (a, b)) throws a TypeError — Link.attach tests only truthiness
before recursing, and the next observe then calls defineProperty on the
primitive — instead of leaving the next link detached; only a falsy
intermediate (root.a = 0) yields the claimed no-throw attach with the next
link detached and resolved value undefined. -/
theorem c7_truthy_primitive_segment_throws_on_attach :
    (Path.observe wPrim 0 (.obj 9) 0).2
      = .err (.typeError "Object.defineProperty called on non-object") ∧
    (Path.observe wZero 0 (.obj 9) 0).2 = .ok () ∧
    (alookup (Path.observe wZero 0 (.obj 9) 0).1.chains (0, 9)).map (fun c => c.value)
      = some .undefined ∧
    (alookup (Path.observe wZero 0 (.obj 9) 0).1.chains (0, 9)).map (fun c => c.links)
      = some [some 0, none] :=
  ⟨rfl, rfl, rfl, rfl⟩

/-- C8: a full observe, arbitrary write sequence, unobserve round trip on a
pre-existing property restores the original descriptor exactly — same flags
and accessor identities — with the value replaced by the last cached value for
instrumented (writable data) properties, and bit-for-bit untouched for
accessor and read-only shapes, which are never instrumented. -/
theorem c8_unobserve_restores_original_descriptor (v0 : Value) (en : Bool) (vs : List Value)
    (g s : Option Nat) (en2 cf2 : Bool) (v2 : Value) (en3 cf3 : Bool) :
    (Observer.observe (w8 v0 en) (.obj 0) "p" (.user 9)).2 = .ok 0 ∧
    hget (Observer.unobserve
        (writeSeq (Observer.observe (w8 v0 en) (.obj 0) "p" (.user 9)).1 vs)
        (.obj 0) "p" (.user 9)).heap 0 "p"
      = some ⟨.dataProp (lastD vs v0) true, en, true⟩ ∧
    hget (Observer.unobserve
        (Observer.observe (wAcc8 g s en2 cf2) (.obj 0) "p" (.user 9)).1
        (.obj 0) "p" (.user 9)).heap 0 "p"
      = some ⟨.accessorProp g s, en2, cf2⟩ ∧
    hget (Observer.unobserve
        (Observer.observe (wRO8 v2 en3 cf3) (.obj 0) "p" (.user 9)).1
        (.obj 0) "p" (.user 9)).heap 0 "p"
      = some ⟨.dataProp v2 false, en3, cf3⟩ := by
  refine ⟨?_, ?_, ?_, ?_⟩
  · rw [w8_observe]
  · have h1 : (Observer.observe (w8 v0 en) (.obj 0) "p" (.user 9)).1 = w8mid v0 en v0 [] := by
      rw [w8_observe]
    rw [h1]
    obtain ⟨lg2, h2⟩ := w8_writes vs v0 en v0 []
    rw [h2]
    exact w8_restore v0 en (lastD vs v0) lg2
  · rfl
  · rfl

/-- C9: the cold uninstrumented walk of path.get on a root with no ChainState
returns the falsy intermediate value itself — here 0 for root {a: 0} under
path (a, b) — not undefined as claimed. -/
theorem c9_cold_get_returns_falsy_intermediate_value :
    alookup wC9.chains (0, 10) = none ∧
    Path.get wC9 0 (.obj 10) = .ok (.num 0) :=
  ⟨rfl, rfl⟩

/-- C10 counterexample: path.unobserve on the falsy root undefined raises
nothing — it returns false with the world unchanged — refuting the claim that
unobserve throws InvalidRoot on falsy roots. -/
theorem c10_counterexample_unobserve_returns_false :
    Path.unobserve wABC 0 .undefined 0 = (wABC, false) := rfl

/-- C10 amended: on every falsy root, path.observe raises the InvalidRoot
error synchronously, while path.unobserve returns false without raising. -/
theorem c10_amended_observe_throws_unobserve_returns_false (v : Value)
    (h : truthy v = false) :
    Path.observe wABC 0 v 0 = (wABC, .err (.jsError "Cannot bind to undefined value")) ∧
    Path.unobserve wABC 0 v 0 = (wABC, false) := by
  constructor
  · simp [Path.observe, h]
  · simp [Path.unobserve, h]

/-- C10 amended claim instantiated at the falsy root null. -/
theorem c10_amended_witness :
    truthy .null = false ∧
    (Path.observe wABC 0 .null 0 = (wABC, .err (.jsError "Cannot bind to undefined value")) ∧
     Path.unobserve wABC 0 .null 0 = (wABC, false)) :=
  ⟨rfl, c10_amended_observe_throws_unobserve_returns_false .null rfl⟩

end ObservePath
